import Mathlib

/-!
A shallow embedding of the identity / authentication / permission-scoped
mutation core of the HostyHosting backend, translated from
`packages/backend/src/entity/User.ts` and
`packages/backend/src/resolvers/ApplicationMutationsResolver.ts`.

TypeScript entities become Lean structures; the persisted store is an
explicit record of row lists; fallible operations return `Except Err` and
thread the store explicitly (a row written before a later step fails stays
written, as in the source, which runs the saves sequentially without a
transaction).  Nullable columns become `Option`; a GraphQL partial-update
input field is `FieldInput` with the three states absent / null / value.
-/

namespace Hosty

/-- `AuthType` from `User.ts`: the phase tag a session carries. -/
inductive AuthType where
  | FULL
  | TOTP
  | PASSWORD_RESET
deriving DecidableEq, Repr

/-- `GrantType` from `User.ts`: how the `User` entity was authenticated. -/
inductive GrantType where
  | NONE
  | SESSION
  | API_KEY
deriving DecidableEq, Repr

/-- `OrganizationPermission` from `OrganizationMembership.ts` (ordered
`READ < WRITE < ADMIN` per the spec's permission model). -/
inductive OrganizationPermission where
  | READ
  | WRITE
  | ADMIN
deriving DecidableEq, Repr

/-- Numeric rank giving the total order `READ < WRITE < ADMIN`. -/
def OrganizationPermission.rank : OrganizationPermission → Nat
  | .READ => 0
  | .WRITE => 1
  | .ADMIN => 2

/-- `p.atLeast q` holds when permission `p` is at least `q`. -/
def OrganizationPermission.atLeast (p q : OrganizationPermission) : Bool :=
  q.rank ≤ p.rank

/-- Error taxonomy: thrown `Error`s and TypeORM `findOneOrFail` misses.
`notFound` is the `EntityNotFoundError` of a failed scoped lookup. -/
inductive Err where
  | notFound
  | unauthenticated
  | errorMsg (msg : String)
deriving DecidableEq, Repr

/-- Modelled from the spec: the bcryptjs hash format (external library).
The Credential Store's `hash` is a salted one-way hash whose salt (cost
factor) is stored inside the hash itself; `verify` re-derives and compares.
We model the digest as retaining the password, which realises exactly the
spec's §4.1/§8 contract: `verify(p, hash(p))` is true and
`verify(w, hash(p))` is false for `w ≠ p`. -/
structure BcryptHash where
  saltRounds : Nat
  digestOf : String
deriving DecidableEq, Repr

/-- Modelled from the spec: bcryptjs `hash(password, saltRounds)`. -/
def bcryptHashFn (password : String) (saltRounds : Nat) : BcryptHash :=
  ⟨saltRounds, password⟩

/-- Modelled from the spec: bcryptjs `compare(password, hash)`. -/
def bcryptCompare (password : String) (h : BcryptHash) : Bool :=
  h.digestOf == password

/-- `SALT_ROUNDS = 10` from `User.ts`. -/
def SALT_ROUNDS : Nat := 10

/-- The `User` entity (`User.ts`): persisted columns plus the transient
`grantType` set for the lifetime of one request. -/
structure User where
  id : Nat
  githubID : Option String := none
  name : String
  username : String
  email : String
  passwordHash : Option BcryptHash := none
  totpSecret : Option String := none
  personalOrganizationId : Option Nat := none
  grantType : GrantType := .NONE
deriving DecidableEq, Repr

/-- The `Organization` entity (columns the core uses). -/
structure Organization where
  id : Nat
  name : String
  username : String
  isPersonal : Bool := false
deriving DecidableEq, Repr

/-- `OrganizationMembership`: links one User to one Organization with a
permission level. -/
structure OrganizationMembership where
  userId : Nat
  organizationId : Nat
  permission : OrganizationPermission
deriving DecidableEq, Repr

/-- The `Application` entity: belongs to exactly one Organization. -/
structure Application where
  id : Nat
  organizationId : Nat
  name : String
  description : String := ""
deriving DecidableEq, Repr

/-- The `Component` entity: belongs to exactly one Application.  The
columns are `Option`-typed because `updateComponent` in the source assigns
whatever the input carries, `null` included. -/
structure Component where
  id : Nat
  applicationId : Nat
  name : Option String
  image : Option String
  deploymentStrategy : Option String
deriving DecidableEq, Repr

/-- The `ContainerGroup` entity: belongs to a Component and redundantly
caches the owning Organization. -/
structure ContainerGroup where
  id : Nat
  componentId : Nat
  environmentId : Nat
  organizationId : Nat
  size : String
  containerCount : Nat
deriving DecidableEq, Repr

/-- The `Secret` entity: belongs to exactly one ContainerGroup. -/
structure Secret where
  id : Nat
  containerGroupId : Nat
  key : String
  value : String
deriving DecidableEq, Repr

/-- The `APIKey` entity: belongs to one User. -/
structure APIKey where
  id : Nat
  userId : Nat
  key : String
  description : String
deriving DecidableEq, Repr

/-- The persisted-entity store: one row list per entity. -/
structure Store where
  users : List User := []
  organizations : List Organization := []
  memberships : List OrganizationMembership := []
  applications : List Application := []
  components : List Component := []
  containerGroups : List ContainerGroup := []
  secrets : List Secret := []
  apiKeys : List APIKey := []
deriving DecidableEq, Repr

/-- The request session (`session.userID`, `session.type`). -/
structure Session where
  userID : Option Nat := none
  type : AuthType := .FULL
deriving DecidableEq, Repr

/-- One cookie as set through `cookies.set(name, value, options)`. -/
structure Cookie where
  name : String
  value : String
  httpOnly : Bool
  signed : Bool
deriving DecidableEq, Repr

/-- The `Cookies` jar: the list of cookies set during the request. -/
abbrev Cookies := List Cookie

/-- `User.findOne(id)`. -/
def Store.findUser (store : Store) (id : Nat) : Option User :=
  store.users.find? (fun u => u.id == id)

/-- Persist a user row: replace the row with the same id, or insert. -/
def Store.saveUser (store : Store) (u : User) : Store :=
  if store.users.any (fun v => v.id == u.id) then
    { store with users := store.users.map (fun v => if v.id == u.id then u else v) }
  else
    { store with users := store.users ++ [u] }

/-- Persist an organization row. -/
def Store.saveOrganization (store : Store) (o : Organization) : Store :=
  if store.organizations.any (fun v => v.id == o.id) then
    { store with organizations :=
        store.organizations.map (fun v => if v.id == o.id then o else v) }
  else
    { store with organizations := store.organizations ++ [o] }

/-- Persist a membership row. -/
def Store.saveMembership (store : Store) (m : OrganizationMembership) : Store :=
  { store with memberships := store.memberships ++ [m] }

/-- Persist a secret row: replace by id, or insert. -/
def Store.saveSecret (store : Store) (s : Secret) : Store :=
  if store.secrets.any (fun v => v.id == s.id) then
    { store with secrets := store.secrets.map (fun v => if v.id == s.id then s else v) }
  else
    { store with secrets := store.secrets ++ [s] }

/-- Persist a component row: replace by id, or insert. -/
def Store.saveComponent (store : Store) (c : Component) : Store :=
  if store.components.any (fun v => v.id == c.id) then
    { store with components := store.components.map (fun v => if v.id == c.id then c else v) }
  else
    { store with components := store.components ++ [c] }

/-- A fresh id for a newly inserted secret row. -/
def Store.freshSecretId (store : Store) : Nat :=
  (store.secrets.map (fun s => s.id)).foldr max 0 + 1

/-- A fresh id for a newly inserted organization row. -/
def Store.freshOrganizationId (store : Store) : Nat :=
  (store.organizations.map (fun o => o.id)).foldr max 0 + 1

/-- A fresh id for a newly inserted user row. -/
def Store.freshUserId (store : Store) : Nat :=
  (store.users.map (fun u => u.id)).foldr max 0 + 1

/-- Persist an application row: replace by id, or insert. -/
def Store.saveApplication (store : Store) (a : Application) : Store :=
  if store.applications.any (fun v => v.id == a.id) then
    { store with applications :=
        store.applications.map (fun v => if v.id == a.id then a else v) }
  else
    { store with applications := store.applications ++ [a] }

/-- JavaScript truthiness of `session.userID` (`0`, like `undefined`, is
falsy). -/
def Session.hasUser (s : Session) : Bool :=
  match s.userID with
  | some uid => uid != 0
  | none => false

/-- `User.fromSession` (`User.ts` lines 56-68): resolve the session into a
user when the session carries a (truthy) user id and its phase tag equals
the demanded `allowedType`; the resolved user gets grant kind `SESSION`. -/
def User.fromSession (store : Store) (session : Session)
    (allowedType : AuthType := .FULL) : Option User :=
  if session.hasUser && (session.type == allowedType) then
    (store.findUser (session.userID.getD 0)).map
      (fun u => { u with grantType := .SESSION })
  else
    none

/-- `User.fromTOTPSession` (`User.ts` lines 70-86).  The otplib
`authenticator.verify` call is external; the verifier is passed in as a
function from the enrolled secret and the submitted token to a Bool. -/
def User.fromTOTPSession (verify : String → String → Bool) (store : Store)
    (session : Session) (token : String) : Except Err User :=
  if !session.hasUser || session.type != .TOTP then
    .error (.errorMsg "No TOTP session currently exists.")
  else
    match store.findUser (session.userID.getD 0) with
    | none => .error (.errorMsg "No user was found in the current session.")
    | some user =>
      match user.totpSecret with
      | none => .error (.errorMsg "No user was found in the current session.")
      | some secret =>
        if verify secret token then .ok user
        else .error (.errorMsg "The TOTP token provided was not valid.")

/-- `User.removeUserCookie` (`User.ts` lines 88-90). -/
def User.removeUserCookie (cookies : Cookies) : Cookies :=
  cookies ++ [⟨"userID", "0", false, false⟩]

/-- `User.signIn` (`User.ts` lines 215-221): store the identity id and
phase tag on the session, and for a FULL sign-in set the display cookie
`userID` with `httpOnly: false, signed: false`. -/
def User.signIn (u : User) (session : Session) (cookies : Cookies)
    (type : AuthType := .FULL) : Session × Cookies :=
  let session' : Session := { session with userID := some u.id, type := type }
  let cookies' : Cookies :=
    if type == .FULL then
      cookies ++ [⟨"userID", toString u.id, false, false⟩]
    else cookies
  (session', cookies')

/-- Modelled from the spec: the second-factor completion operation's
resolver is not under `src/` (only `User.fromTOTPSession` is).  Per §4.2,
on successful verification the session is re-issued with phase `full`,
which is `signIn` with `AuthType.FULL` (that part is under `src/`); on
failure the session is left unchanged and the attempt rejected. -/
def completeTOTP (verify : String → String → Bool) (store : Store)
    (session : Session) (cookies : Cookies) (token : String) :
    Session × Cookies × Except Err User :=
  match User.fromTOTPSession verify store session token with
  | .error e => (session, cookies, .error e)
  | .ok user =>
    let (s', c') := user.signIn session cookies .FULL
    (s', c', .ok user)

/-- `User.setPassword` (`User.ts` lines 178-180): bcrypt-hash the new
password with `SALT_ROUNDS` and store it on the entity. -/
def User.setPassword (u : User) (newPassword : String) : User :=
  { u with passwordHash := some (bcryptHashFn newPassword SALT_ROUNDS) }

/-- `User.checkPassword` (`User.ts` lines 211-213): bcrypt-compare the
candidate against the stored hash (no stored hash verifies nothing). -/
def User.checkPassword (u : User) (password : String) : Bool :=
  match u.passwordHash with
  | some h => bcryptCompare password h
  | none => false

/-- `User.disableTOTP` (`User.ts` lines 191-205): return silently when no
second-factor secret is enrolled; otherwise check the password, throw on a
mismatch, and on a match clear the secret and persist the entity. -/
def User.disableTOTP (u : User) (password : String) (store : Store) :
    Store × Except Err User :=
  match u.totpSecret with
  | none => (store, .ok u)
  | some _ =>
    if u.checkPassword password then
      let u' := { u with totpSecret := none }
      (store.saveUser u', .ok u')
    else
      (store, .error (.errorMsg "Password is not valid!"))

/-- `User.signUp` (`User.ts` lines 92-130): save the personal
Organization, then the User, then the admin Membership, then sign in —
three sequential saves with no surrounding transaction, so rows written
before a later step fails stay in the store.  `membershipSaveFails`
injects a failure at the Membership save (e.g. a constraint violation). -/
def User.signUp (store : Store) (session : Session) (cookies : Cookies)
    (username name email : String) (password githubID : Option String)
    (membershipSaveFails : Bool) :
    Store × Session × Cookies × Except Err Unit :=
  let organization : Organization :=
    { id := store.freshOrganizationId, name := "Personal",
      isPersonal := true, username := username }
  let store1 := store.saveOrganization organization
  let baseUser : User :=
    { id := store1.freshUserId, username := username, name := name,
      githubID := githubID, email := email,
      personalOrganizationId := some organization.id }
  let user :=
    match password with
    | some p => baseUser.setPassword p
    | none => baseUser
  let store2 := store1.saveUser user
  if membershipSaveFails then
    (store2, session, cookies, .error (.errorMsg "membership save failed"))
  else
    let membership : OrganizationMembership :=
      ⟨user.id, organization.id, .ADMIN⟩
    let store3 := store2.saveMembership membership
    let (session', cookies') := user.signIn session cookies .FULL
    (store3, session', cookies', .ok ())

/-- A GraphQL partial-update input field: absent from the input object,
explicitly `null`, or carrying a value.  `typeof x !== 'undefined'`
distinguishes `absent` from the other two; `'x' in input` is
`≠ absent`. -/
inductive FieldInput (α : Type) where
  | absent
  | null
  | value (a : α)
deriving DecidableEq, Repr

/-- The value a present field carries (`null` becomes `none`). -/
def FieldInput.toOption {α : Type} : FieldInput α → Option α
  | .value a => some a
  | _ => none

/-- `ApplicationInput` (name, description). -/
structure ApplicationInput where
  name : FieldInput String := .absent
  description : FieldInput String := .absent
deriving DecidableEq, Repr

/-- `ComponentInput` (name, image, deploymentStrategy). -/
structure ComponentInput where
  name : FieldInput String := .absent
  image : FieldInput String := .absent
  deploymentStrategy : FieldInput String := .absent
deriving DecidableEq, Repr

/-- Modelled from the spec: `Application.userHasPermission` lives in
`Application.ts`, which is not under `src/`.  Per §4.3 it looks up the
unique Membership for the caller and the application's owning
Organization (derived from the loaded resource, never caller-supplied);
per §7/§8 absence of a Membership or an insufficient level fails with
`NotFound` (existence must not be leaked), never `Unauthorized`. -/
def Application.userHasPermission (store : Store) (app : Application)
    (user : User) (required : OrganizationPermission) : Except Err Unit :=
  match store.memberships.find?
      (fun m => m.userId == user.id && m.organizationId == app.organizationId) with
  | some m => if m.permission.atLeast required then .ok () else .error .notFound
  | none => .error .notFound

/-- `ApplicationMutationsResolver.application` (lines 178-194): the
mutation gate.  `findOneOrFail` the Application by id (unscoped), then
require AT LEAST write access on its organization. -/
def ApplicationMutationsResolver.application (store : Store) (user : User)
    (id : Nat) : Except Err Application :=
  match store.applications.find? (fun a => a.id == id) with
  | none => .error .notFound
  | some app =>
    match Application.userHasPermission store app user .WRITE with
    | .error e => .error e
    | .ok _ => .ok app

/-- `ApplicationMutations.delete` (lines 21-29): deletes only the
Application row itself (`Application.delete(this.application.id)`) and
returns the in-memory entity; descendants are untouched (the cascade is an
explicit TODO in the source). -/
def ApplicationMutations.delete (store : Store) (app : Application) :
    Store × Application :=
  ({ store with applications := store.applications.filter (fun a => a.id != app.id) },
   app)

/-- `ApplicationMutations.update` (lines 31-45): assign `name` and
`description` only when the input field is neither `undefined` nor `null`,
then save. -/
def ApplicationMutations.update (store : Store) (app : Application)
    (applicationInput : ApplicationInput) : Store × Application :=
  let app1 :=
    match applicationInput.name with
    | .value v => { app with name := v }
    | _ => app
  let app2 :=
    match applicationInput.description with
    | .value v => { app1 with description := v }
    | _ => app1
  (store.saveApplication app2, app2)

/-- Modelled from the spec: `Component.findByApplicationAndId` lives in
`Component.ts`, which is not under `src/`.  Per §4.4 the load is scoped by
id and owning Application together; no matching row fails with not
found. -/
def Component.findByApplicationAndId (store : Store) (app : Application)
    (id : Nat) : Except Err Component :=
  match store.components.find?
      (fun c => c.id == id && c.applicationId == app.id) with
  | some c => .ok c
  | none => .error .notFound

/-- `ApplicationMutations.updateComponent` (lines 88-108): load the
component scoped to the gated application, then assign each field that is
present on the input (`'name' in componentInput`) — a present `null` is
assigned as-is — and save. -/
def ApplicationMutations.updateComponent (store : Store) (app : Application)
    (id : Nat) (componentInput : ComponentInput) :
    Store × Except Err Component :=
  match Component.findByApplicationAndId store app id with
  | .error e => (store, .error e)
  | .ok c =>
    let c1 :=
      if componentInput.name ≠ .absent then
        { c with name := componentInput.name.toOption }
      else c
    let c2 :=
      if componentInput.image ≠ .absent then
        { c1 with image := componentInput.image.toOption }
      else c1
    let c3 :=
      if componentInput.deploymentStrategy ≠ .absent then
        { c2 with deploymentStrategy := componentInput.deploymentStrategy.toOption }
      else c2
    (store.saveComponent c3, .ok c3)

/-- `ApplicationMutations.addSecret` (lines 110-127): the ContainerGroup
is looked up by id alone — NOT scoped to the gated application or its
organization (the source carries a TODO noting this is not secure) — then
a new Secret row is created under it. -/
def ApplicationMutations.addSecret (store : Store) (app : Application)
    (containerGroupID : Nat) (key value : String) :
    Store × Except Err Secret :=
  match store.containerGroups.find? (fun cg => cg.id == containerGroupID) with
  | none => (store, .error .notFound)
  | some cg =>
    let secret : Secret :=
      { id := store.freshSecretId, containerGroupId := cg.id,
        key := key, value := value }
    (store.saveSecret secret, .ok secret)

/-- `ApplicationMutations.editSecret` (lines 129-149): `findOneOrFail` the
Secret scoped by Secret id AND ContainerGroup id together, then update its
key and value and save. -/
def ApplicationMutations.editSecret (store : Store) (app : Application)
    (containerGroupID : Nat) (id : Nat) (key value : String) :
    Store × Except Err Secret :=
  match store.secrets.find?
      (fun s => s.id == id && s.containerGroupId == containerGroupID) with
  | none => (store, .error .notFound)
  | some s =>
    let s' := { s with key := key, value := value }
    (store.saveSecret s', .ok s')

/-- `ApplicationMutations.deleteSecret` (lines 151-168): `findOneOrFail`
the Secret scoped by Secret id AND ContainerGroup id together, then delete
the row. -/
def ApplicationMutations.deleteSecret (store : Store) (app : Application)
    (containerGroupID : Nat) (id : Nat) : Store × Except Err Secret :=
  match store.secrets.find?
      (fun s => s.id == id && s.containerGroupId == containerGroupID) with
  | none => (store, .error .notFound)
  | some s =>
    ({ store with secrets := store.secrets.filter (fun t => t.id != s.id) },
     .ok s)

section Fixtures

/-- Fixture: alice's personal organization. -/
def aliceOrg : Organization := ⟨1, "Personal", "alice", true⟩

/-- Fixture: bob's personal organization. -/
def bobOrg : Organization := ⟨2, "Personal", "bob", true⟩

/-- Fixture: identity alice (admin on her organization). -/
def alice : User :=
  { id := 1, name := "Alice", username := "alice", email := "alice@example.com" }

/-- Fixture: identity bob (write on his own organization only). -/
def bob : User :=
  { id := 2, name := "Bob", username := "bob", email := "bob@example.com" }

/-- Fixture: identity with an enrolled second-factor secret and password. -/
def totpUser : User :=
  { id := 3, name := "Trudy", username := "trudy", email := "trudy@example.com",
    passwordHash := some (bcryptHashFn "pw" SALT_ROUNDS),
    totpSecret := some "SECRET" }

/-- Fixture: alice's Application "web" in her organization. -/
def webApp : Application := ⟨1, 1, "web", "frontend"⟩

/-- Fixture: bob's Application in his organization. -/
def bobApp : Application := ⟨2, 2, "bobweb", ""⟩

/-- Fixture: Component "api" under `webApp`. -/
def apiComponent : Component := ⟨1, 1, some "api", some "repo/api:1", some "RECREATE"⟩

/-- Fixture: ContainerGroup under `apiComponent`, owned by alice's org. -/
def cg1 : ContainerGroup := ⟨1, 1, 1, 1, "small", 2⟩

/-- Fixture: Secret under `cg1`. -/
def dbSecret : Secret := ⟨1, 1, "DB_URL", "postgres://db"⟩

/-- Fixture store: both identities, both organizations, alice's full
Application → Component → ContainerGroup → Secret chain and bob's empty
Application.  Bob has no membership on alice's organization. -/
def baseStore : Store :=
  { users := [alice, bob, totpUser],
    organizations := [aliceOrg, bobOrg],
    memberships := [⟨1, 1, .ADMIN⟩, ⟨2, 2, .WRITE⟩],
    applications := [webApp, bobApp],
    components := [apiComponent],
    containerGroups := [cg1],
    secrets := [dbSecret] }

/-- Fixture store for the cascade-delete scenario: exactly one
Application with one Component, one ContainerGroup and one Secret. -/
def cascadeStore : Store :=
  { users := [alice],
    organizations := [aliceOrg],
    memberships := [⟨1, 1, .ADMIN⟩],
    applications := [webApp],
    components := [apiComponent],
    containerGroups := [cg1],
    secrets := [dbSecret] }

/-- Fixture verifier standing for `authenticator.verify`: accepts exactly
the token "123456" for the secret "SECRET". -/
def totpVerifyFix (secret token : String) : Bool :=
  secret == "SECRET" && token == "123456"

end Fixtures

/-- C2: `ApplicationMutations.delete` does NOT cascade: on the store with
one Application, one Component, one ContainerGroup and one Secret beneath
it, deleting the Application removes the Application row but leaves the
Component, ContainerGroup and Secret rows in the store, contradicting
cascade completeness; the source marks the cascade as a TODO. -/
theorem delete_leaves_descendants :
    (ApplicationMutations.delete cascadeStore webApp).1.applications = [] ∧
    (ApplicationMutations.delete cascadeStore webApp).1.components = [apiComponent] ∧
    (ApplicationMutations.delete cascadeStore webApp).1.containerGroups = [cg1] ∧
    (ApplicationMutations.delete cascadeStore webApp).1.secrets = [dbSecret] := by
  decide

/-- C4: `User.signUp` is NOT atomic: when the Membership save fails, the
Organization and Identity rows written by the two earlier saves remain
visible in the store while no Membership row exists. -/
theorem signUp_membership_failure_leaves_rows :
    (User.signUp {} {} [] "carol" "Carol" "carol@example.com"
        (some "pw") none true).2.2.2 =
      .error (.errorMsg "membership save failed") ∧
    (User.signUp {} {} [] "carol" "Carol" "carol@example.com"
        (some "pw") none true).1.organizations =
      [⟨1, "Personal", "carol", true⟩] ∧
    (User.signUp {} {} [] "carol" "Carol" "carol@example.com"
        (some "pw") none true).1.users =
      [{ id := 1, name := "Carol", username := "carol",
         email := "carol@example.com",
         passwordHash := some (bcryptHashFn "pw" SALT_ROUNDS),
         personalOrganizationId := some 1 }] ∧
    (User.signUp {} {} [] "carol" "Carol" "carol@example.com"
        (some "pw") none true).1.memberships = [] := by
  exact ⟨rfl, rfl, rfl, rfl⟩

/-- C8: password hashing round-trips: after `setPassword p`,
`checkPassword p` is true and `checkPassword w` is false for any `w ≠ p`
(bcryptjs modelled from the spec's Credential Store contract). -/
theorem setPassword_checkPassword_roundtrip (u : User) (p w : String)
    (hw : w ≠ p) :
    (u.setPassword p).checkPassword p = true ∧
    (u.setPassword p).checkPassword w = false := by
  refine ⟨?_, ?_⟩ <;>
    simp [User.setPassword, User.checkPassword, bcryptHashFn, bcryptCompare,
      Ne.symm hw]

/-- Witness for the round-trip at a concrete password pair. -/
theorem setPassword_checkPassword_roundtrip_witness :
    ("hunter3" : String) ≠ "hunter2" ∧
    ((alice.setPassword "hunter2").checkPassword "hunter2" = true ∧
     (alice.setPassword "hunter2").checkPassword "hunter3" = false) :=
  ⟨by decide, setPassword_checkPassword_roundtrip alice "hunter2" "hunter3" (by decide)⟩

/-- C9 counterexample: at a concrete full-phase sign-in the display cookie
is set with `signed := false` (and `httpOnly := false`), refuting "set as
a signed ... cookie". -/
theorem signIn_cookie_not_signed :
    (User.signIn alice ⟨none, .FULL⟩ [] .FULL).2 =
      [⟨"userID", "1", false, false⟩] ∧
    (∀ c ∈ (User.signIn alice ⟨none, .FULL⟩ [] .FULL).2, c.signed = false) := by
  decide

/-- C9 amended: for every full-phase sign-in, the display cookie carrying
the raw identity id is set as a non-HTTP-only, UNSIGNED cookie
(`httpOnly: false, signed: false`), and the session is stamped with the
identity id and phase FULL. -/
theorem signIn_sets_unsigned_display_cookie (u : User) (session : Session)
    (cookies : Cookies) :
    (u.signIn session cookies .FULL).2 =
      cookies ++ [⟨"userID", toString u.id, false, false⟩] ∧
    (u.signIn session cookies .FULL).1 =
      { session with userID := some u.id, type := .FULL } := by
  constructor <;> rfl

/-- C10: `disableTOTP` is a guarded no-op without an enrolled secret (any
password, no error, nothing changes), throws on a wrong password leaving
the stored secret unchanged, and on a correct password clears the secret
and persists the identity. -/
theorem disableTOTP_spec (u : User) (password : String) (store : Store) :
    (u.totpSecret = none → u.disableTOTP password store = (store, .ok u)) ∧
    (∀ s, u.totpSecret = some s → u.checkPassword password = false →
      u.disableTOTP password store =
        (store, .error (.errorMsg "Password is not valid!"))) ∧
    (∀ s, u.totpSecret = some s → u.checkPassword password = true →
      u.disableTOTP password store =
        (store.saveUser { u with totpSecret := none },
         .ok { u with totpSecret := none })) := by
  refine ⟨fun h => ?_, fun s hs hbad => ?_, fun s hs hok => ?_⟩ <;>
    simp [User.disableTOTP, *]

/-- Witness for `disableTOTP`: the no-secret no-op on alice with a wrong
password, and both enrolled-secret branches on the TOTP fixture user. -/
theorem disableTOTP_spec_witness :
    (alice.disableTOTP "wrong" baseStore = (baseStore, .ok alice)) ∧
    (totpUser.disableTOTP "wrong" baseStore =
      (baseStore, .error (.errorMsg "Password is not valid!"))) ∧
    (totpUser.disableTOTP "pw" baseStore =
      (baseStore.saveUser { totpUser with totpSecret := none },
       .ok { totpUser with totpSecret := none })) :=
  ⟨(disableTOTP_spec alice "wrong" baseStore).1 (by decide),
   (disableTOTP_spec totpUser "wrong" baseStore).2.1 "SECRET" (by decide) (by decide),
   (disableTOTP_spec totpUser "pw" baseStore).2.2 "SECRET" (by decide) (by decide)⟩

/-- C1: the `application(id)` gate itself gives a caller with no
membership `NotFound`, but `addSecret`'s ContainerGroup lookup is
unscoped: bob, gated through his own application (write on his own
organization only, no membership on alice's organization), successfully
creates a Secret under alice's ContainerGroup — contradicting "the secret
is created only if the caller holds at least write permission on the
Organization that owns the target ContainerGroup".  The source's TODO
("This is not really secure because we don't scope the container group
lookup") acknowledges this. -/
theorem addSecret_crosses_organization :
    ApplicationMutationsResolver.application baseStore bob 1 =
      .error .notFound ∧
    ApplicationMutationsResolver.application baseStore bob 2 = .ok bobApp ∧
    (∀ m ∈ baseStore.memberships,
      ¬(m.userId = bob.id ∧ m.organizationId = cg1.organizationId)) ∧
    (ApplicationMutations.addSecret baseStore bobApp 1 "STOLEN" "v").2 =
      .ok ⟨2, 1, "STOLEN", "v"⟩ ∧
    (⟨2, 1, "STOLEN", "v"⟩ : Secret) ∈
      (ApplicationMutations.addSecret baseStore bobApp 1 "STOLEN" "v").1.secrets :=
  ⟨rfl, rfl, by decide, rfl, by decide⟩

/-- C3: second-factor completion fails with an error when the session is
not in the TOTP phase (or carries no user id), when no identity matches
the stored id, or when the matched identity has no enrolled secret; a
failing code rejects the attempt and leaves the session unchanged; a
verifying code re-issues the session with phase FULL. -/
theorem completeTOTP_spec (verify : String → String → Bool) (store : Store)
    (session : Session) (cookies : Cookies) (token : String) :
    (session.hasUser = false ∨ session.type ≠ .TOTP →
      completeTOTP verify store session cookies token =
        (session, cookies,
         .error (.errorMsg "No TOTP session currently exists."))) ∧
    (session.hasUser = true → session.type = .TOTP →
      store.findUser (session.userID.getD 0) = none →
      completeTOTP verify store session cookies token =
        (session, cookies,
         .error (.errorMsg "No user was found in the current session."))) ∧
    (∀ u, session.hasUser = true → session.type = .TOTP →
      store.findUser (session.userID.getD 0) = some u → u.totpSecret = none →
      completeTOTP verify store session cookies token =
        (session, cookies,
         .error (.errorMsg "No user was found in the current session."))) ∧
    (∀ u s, session.hasUser = true → session.type = .TOTP →
      store.findUser (session.userID.getD 0) = some u →
      u.totpSecret = some s → verify s token = false →
      completeTOTP verify store session cookies token =
        (session, cookies,
         .error (.errorMsg "The TOTP token provided was not valid."))) ∧
    (∀ u s, session.hasUser = true → session.type = .TOTP →
      store.findUser (session.userID.getD 0) = some u →
      u.totpSecret = some s → verify s token = true →
      completeTOTP verify store session cookies token =
        ({ userID := some u.id, type := .FULL },
         cookies ++ [⟨"userID", toString u.id, false, false⟩], .ok u)) := by
  refine ⟨fun h => ?_, fun h1 h2 h3 => ?_, fun u h1 h2 h3 h4 => ?_,
    fun u s h1 h2 h3 h4 h5 => ?_, fun u s h1 h2 h3 h4 h5 => ?_⟩
  · rcases h with h | h <;>
      simp [completeTOTP, User.fromTOTPSession, h]
  · simp [completeTOTP, User.fromTOTPSession, h1, h2, h3]
  · simp [completeTOTP, User.fromTOTPSession, h1, h2, h3, h4]
  · simp [completeTOTP, User.fromTOTPSession, h1, h2, h3, h4, h5]
  · simp [completeTOTP, User.fromTOTPSession, User.signIn, h1, h2, h3, h4, h5]

/-- Witness: the TOTP fixture user completes second-factor verification
with the valid token and the session is re-issued with phase FULL. -/
theorem completeTOTP_spec_witness :
    completeTOTP totpVerifyFix baseStore ⟨some 3, .TOTP⟩ [] "123456" =
      (⟨some 3, .FULL⟩, [⟨"userID", "3", false, false⟩], .ok totpUser) := by
  exact (completeTOTP_spec totpVerifyFix baseStore ⟨some 3, .TOTP⟩ []
    "123456").2.2.2.2 totpUser "SECRET" rfl rfl rfl rfl rfl

/-- C5: `fromSession` resolves to a user only when the session carries a
(truthy) stored identity id and its phase tag equals the demanded phase,
and the resolved user has grant kind SESSION; in particular a TOTP-pending
session never resolves for an operation demanding the FULL phase. -/
theorem fromSession_phase_gate (store : Store) (session : Session)
    (allowed : AuthType) :
    (∀ u, User.fromSession store session allowed = some u →
      session.hasUser = true ∧ session.type = allowed ∧
      u.grantType = .SESSION) ∧
    (session.type = .TOTP → User.fromSession store session .FULL = none) := by
  constructor
  · intro u hu
    unfold User.fromSession at hu
    split at hu
    case isTrue hc =>
      rw [Bool.and_eq_true, beq_iff_eq] at hc
      rcases Option.map_eq_some'.mp hu with ⟨v, _, rfl⟩
      exact ⟨hc.1, hc.2, rfl⟩
    case isFalse hc => simp at hu
  · intro ht
    simp [User.fromSession, ht]

/-- Witness: a FULL session for alice resolves with grant kind SESSION,
and the same session in the TOTP phase does not resolve for FULL. -/
theorem fromSession_phase_gate_witness :
    (Session.hasUser ⟨some 1, .FULL⟩ = true ∧
     Session.type ⟨some 1, .FULL⟩ = .FULL ∧
     ({ alice with grantType := .SESSION } : User).grantType = .SESSION) ∧
    User.fromSession baseStore ⟨some 1, .TOTP⟩ .FULL = none :=
  ⟨(fromSession_phase_gate baseStore ⟨some 1, .FULL⟩ .FULL).1
      { alice with grantType := .SESSION } rfl,
   (fromSession_phase_gate baseStore ⟨some 1, .TOTP⟩ .FULL).2 rfl⟩

/-- C6: when no Secret row with the given id belongs to the given
ContainerGroup, both `editSecret` and `deleteSecret` fail with not-found
and leave the store unchanged — the lookup is scoped by Secret id and
ContainerGroup id together. -/
theorem secretLookup_scoped (store : Store) (app : Application)
    (cgId sid : Nat) (key value : String)
    (h : ∀ s ∈ store.secrets, s.id = sid → s.containerGroupId ≠ cgId) :
    ApplicationMutations.editSecret store app cgId sid key value =
      (store, .error .notFound) ∧
    ApplicationMutations.deleteSecret store app cgId sid =
      (store, .error .notFound) := by
  have hfind : store.secrets.find?
      (fun s => s.id == sid && s.containerGroupId == cgId) = none := by
    rw [List.find?_eq_none]
    intro s hs
    simp only [Bool.and_eq_true, beq_iff_eq, not_and]
    exact h s hs
  constructor <;>
    simp [ApplicationMutations.editSecret, ApplicationMutations.deleteSecret,
      hfind]

/-- Witness: the fixture Secret (id 1) lives under ContainerGroup 1, so
addressing it through ContainerGroup 2 is not-found and changes
nothing. -/
theorem secretLookup_scoped_witness :
    ApplicationMutations.editSecret baseStore webApp 2 1 "k" "v" =
      (baseStore, .error .notFound) ∧
    ApplicationMutations.deleteSecret baseStore webApp 2 1 =
      (baseStore, .error .notFound) :=
  secretLookup_scoped baseStore webApp 2 1 "k" "v" (by decide)

/-- C7 counterexample: the fixture Component's name is `some "api"`, yet
`updateComponent` with `name` explicitly null overwrites it with null both
on the returned entity and in the store — an explicitly-null field is NOT
left unchanged. -/
theorem updateComponent_null_overwrites :
    apiComponent.name = some "api" ∧
    (ApplicationMutations.updateComponent cascadeStore webApp 1
        { name := .null }).2 = .ok { apiComponent with name := none } ∧
    { apiComponent with name := none } ∈
      (ApplicationMutations.updateComponent cascadeStore webApp 1
        { name := .null }).1.components :=
  ⟨rfl, rfl, by decide⟩

/-- C7 amended: `update` (Application) leaves a field unchanged when it is
absent or explicitly null and assigns it only when a non-null value is
provided; `updateComponent` leaves a field unchanged only when it is
absent from the input, and assigns any present field — a present null
overwrites the stored value with null. -/
theorem partial_update_semantics (store : Store) (app : Application)
    (ai : ApplicationInput) (ci : ComponentInput) (id : Nat) :
    ((ai.name = .absent ∨ ai.name = .null) →
      ((ApplicationMutations.update store app ai).2).name = app.name) ∧
    (∀ v, ai.name = .value v →
      ((ApplicationMutations.update store app ai).2).name = v) ∧
    ((ai.description = .absent ∨ ai.description = .null) →
      ((ApplicationMutations.update store app ai).2).description =
        app.description) ∧
    (∀ v, ai.description = .value v →
      ((ApplicationMutations.update store app ai).2).description = v) ∧
    (∀ c0, Component.findByApplicationAndId store app id = .ok c0 →
      (ApplicationMutations.updateComponent store app id ci).2 =
        .ok { c0 with
          name := if ci.name = .absent then c0.name else ci.name.toOption,
          image := if ci.image = .absent then c0.image else ci.image.toOption,
          deploymentStrategy :=
            if ci.deploymentStrategy = .absent then c0.deploymentStrategy
            else ci.deploymentStrategy.toOption }) := by
  obtain ⟨an, ad⟩ := ai
  refine ⟨fun h => ?_, fun v hv => ?_, fun h => ?_, fun v hv => ?_,
    fun c0 h => ?_⟩
  · rcases h with h | h <;> subst h <;>
      cases ad <;> simp [ApplicationMutations.update]
  · subst hv; cases ad <;> simp [ApplicationMutations.update]
  · rcases h with h | h <;> subst h <;>
      cases an <;> simp [ApplicationMutations.update]
  · subst hv; cases an <;> simp [ApplicationMutations.update]
  · obtain ⟨cn, cim, cds⟩ := ci
    cases cn <;> cases cim <;> cases cds <;>
      simp [ApplicationMutations.updateComponent, h, FieldInput.toOption]

/-- Witness: updating the fixture Application with a null name and a
provided description changes only the description, and `updateComponent`
with only `image` provided changes only the image. -/
theorem partial_update_semantics_witness :
    ((ApplicationMutations.update cascadeStore webApp
        ⟨.null, .value "d2"⟩).2).name = webApp.name ∧
    ((ApplicationMutations.update cascadeStore webApp
        ⟨.null, .value "d2"⟩).2).description = "d2" ∧
    (ApplicationMutations.updateComponent cascadeStore webApp 1
        ⟨.absent, .value "repo/api:2", .absent⟩).2 =
      .ok { apiComponent with image := some "repo/api:2" } := by
  refine ⟨(partial_update_semantics cascadeStore webApp ⟨.null, .value "d2"⟩
      ⟨.absent, .value "repo/api:2", .absent⟩ 1).1 (Or.inr rfl),
    (partial_update_semantics cascadeStore webApp ⟨.null, .value "d2"⟩
      ⟨.absent, .value "repo/api:2", .absent⟩ 1).2.2.2.1 "d2" rfl, ?_⟩
  have h := (partial_update_semantics cascadeStore webApp ⟨.null, .value "d2"⟩
      ⟨.absent, .value "repo/api:2", .absent⟩ 1).2.2.2.2 apiComponent rfl
  simpa [FieldInput.toOption] using h

end Hosty
